import Mathlib

/-!
Shallow embedding of the runtime core of `rust-doom` (`src/game/game.rs`):
the bootstrap sequence `Game::new` and the per-frame loop `Game::run`.

External collaborators (SDL, `gfx::Window`, `wad::Archive`, `Level`, `Player`,
`GameController`, `TextRenderer`) live in sibling crates of the same workspace
that are not part of the given sources; their observable contracts are taken
from the specification (section 6) and modelled as data carried by an
environment value.  Floating-point scalars (`f32`/`f64` timestamps, deltas and
accumulators) are modelled as exact rationals; machine-integer subtleties that
matter (the `usize` subtraction `num_levels() - 1`) are modelled explicitly
with checked subtraction on `Nat`.
-/

/-- Configuration value (`GameConfig`).  The two paths are omitted: the archive
they designate is part of the boot environment below. -/
structure GameConfig where
  level_index : Nat
  fov : ℚ
  width : Nat
  height : Nat
deriving DecidableEq

/-- Modelled from the spec: `gfx::Window` (not under the given sources) only
exposes `aspect_ratio()` to the core. -/
structure WindowSpec where
  aspect_ratio : ℚ
deriving DecidableEq

/-- Modelled from the spec: `wad::Archive` only exposes `num_levels()` to the
core (a `usize`). -/
structure ArchiveSpec where
  num_levels : Nat
deriving DecidableEq

/-- Modelled from the spec: `Level` exposes `start_pos() -> Vec2` to the core. -/
structure LevelSpec where
  start_pos : ℚ × ℚ
deriving DecidableEq

/-- Modelled from the spec: the third argument of `Player::new` is an abstract
bundle of physics parameters; `Default::default()` is modelled by `default`. -/
structure PhysicsParams where
deriving DecidableEq, Inhabited

/-- Modelled from the spec: the `Player` state the core observes — the
constructor arguments of `Player::new(fov, aspect, physics)` and the position
written by `set_position`. -/
structure Player where
  fov : ℚ
  aspect : ℚ
  physics : PhysicsParams
  pos : ℚ × ℚ
deriving DecidableEq

/-- Modelled from the spec: `Player::new(fov, aspect, physics_defaults)`.  The
initial position is whatever the player module chooses; `Game::new` overwrites
it immediately via `set_position`, so a fixed placeholder is faithful for
everything the core observes. -/
def Player.new (fov aspect : ℚ) (physics : PhysicsParams) : Player :=
  { fov := fov, aspect := aspect, physics := physics, pos := (0, 0) }

/-- Modelled from the spec: `Player::set_position(Vec2)`. -/
def Player.set_position (p : Player) (pos : ℚ × ℚ) : Player :=
  { p with pos := pos }

/-- The assembled runtime instance (`struct Game`).  Scene, text renderer, SDL
context and controller carry no data the bootstrap claims observe. -/
structure Game where
  window : WindowSpec
  scene : Unit
  text : Unit
  player : Player
  level : LevelSpec
  control : Unit
deriving DecidableEq

/-- Resource-allocation events of `Game::new`, in program order. -/
inductive Alloc
  | sdl
  | window
  | archive
  | textures
  | sceneBuilder
  | level
  | scene
  | player
  | controller
  | text
deriving DecidableEq

/-- The data interpolated into the `ensure!` message
"Level index was {}, must be between 0..{}": the offending index and the
upper bound `num_levels() - 1`. -/
structure ConfigErrMsg where
  given : Nat
  rangeHi : Nat
deriving DecidableEq

/-- Error outcomes of the bootstrap steps, one per fallible call site. -/
inductive BootError
  | sdl
  | graphics
  | archive
  | config (msg : ConfigErrMsg)
  | texture
  | levelBuild
  | sceneBuild
  | eventPump
  | text
deriving DecidableEq

/-- Result of `Game::new`: success, a propagated error, or an abort of the
process.  The abort case arises from the `usize` expression
`wad.num_levels() - 1` in the `ensure!` message, which under guarded (checked)
arithmetic traps when `num_levels() = 0`. -/
inductive BootOutcome
  | ok (g : Game)
  | err (e : BootError)
  | panicked
deriving DecidableEq

/-- Checked `usize` subtraction: `none` models the underflow trap. -/
def checkedSub (a b : Nat) : Option Nat :=
  if b ≤ a then some (a - b) else none

/-- Environment for one run of `Game::new`: the outcome of every external
fallible call, in the order the bootstrap makes them.  `none`/`false` means
that collaborator call fails. -/
structure BootEnv where
  sdl_ok : Bool
  window : Option WindowSpec
  archive : Option ArchiveSpec
  textures_ok : Bool
  level : Option LevelSpec
  scene_build_ok : Bool
  event_pump_ok : Bool
  text_ok : Bool
deriving DecidableEq

/-- `Game::new` (src/game/game.rs, lines 36-70).  Returns the outcome together
with the list of resources allocated before returning, in acquisition order.
The `ensure!` check sits after SDL init, window creation and archive open and
before every later acquisition; its message arguments are evaluated only on
the failing branch, where `wad.num_levels() - 1` is a checked `usize`
subtraction. -/
def gameNew (config : GameConfig) (env : BootEnv) : BootOutcome × List Alloc :=
  if env.sdl_ok = false then (.err .sdl, []) else
  match env.window with
  | none => (.err .graphics, [.sdl])
  | some w =>
    match env.archive with
    | none => (.err .archive, [.sdl, .window])
    | some wad =>
      if config.level_index < wad.num_levels then
        if env.textures_ok = false then (.err .texture, [.sdl, .window, .archive]) else
        match env.level with
        | none =>
          (.err .levelBuild, [.sdl, .window, .archive, .textures, .sceneBuilder])
        | some lvl =>
          if env.scene_build_ok = false then
            (.err .sceneBuild, [.sdl, .window, .archive, .textures, .sceneBuilder, .level])
          else
            let player :=
              (Player.new config.fov (w.aspect_ratio * (6 / 5)) default).set_position
                lvl.start_pos
            if env.event_pump_ok = false then
              (.err .eventPump,
               [.sdl, .window, .archive, .textures, .sceneBuilder, .level, .scene, .player])
            else if env.text_ok = false then
              (.err .text,
               [.sdl, .window, .archive, .textures, .sceneBuilder, .level, .scene, .player,
                .controller])
            else
              (.ok { window := w, scene := (), text := (), player := player, level := lvl,
                     control := () },
               [.sdl, .window, .archive, .textures, .sceneBuilder, .level, .scene, .player,
                .controller, .text])
      else
        match checkedSub wad.num_levels 1 with
        | none => (.panicked, [.sdl, .window, .archive])
        | some hi => (.err (.config ⟨config.level_index, hi⟩), [.sdl, .window, .archive])

/-- The clock-stall threshold `1e-10` of `Game::run` (exact as a rational). -/
def stallEps : ℚ := 1 / 10000000000

/-- Per-frame delta clamping (`Game::run`, lines 105-108): if the raw delta
`t1 - t0` is below `1e-10`, substitute `1/60`, otherwise keep the raw delta. -/
def effectiveDelta (raw : ℚ) : ℚ :=
  if raw < stallEps then 1 / 60 else raw

/-- One help-toggle transition of the overlay machine (`Game::run`, lines
121-131): `current_help = current_help % 2 + 1`, then the `match` arms set
overlay visibility.  Arguments and result are
(counter, short-help visible, long-help visible).  The `0` arm shows the short
help and the final arm is `unreachable!()` in the source (modelled as the
identity action; `c % 2 + 1` only takes values 1 and 2, so neither arm is ever
taken after a toggle). -/
def applyHelp (c : Nat) (sv lv : Bool) : Nat × Bool × Bool :=
  let c := c % 2 + 1
  match c with
  | 0 => (c, true, lv)
  | 1 => (c, false, true)
  | 2 => (c, sv, false)
  | _ => (c, sv, lv)

/-- The mutable per-iteration state of `Game::run`, plus the two controller
settings the grab branch writes (modelled from the spec: the controller stores
the last value passed to `set_mouse_enabled` / `set_cursor_grabbed`). -/
structure LoopState where
  t0 : ℚ
  mouse_grabbed : Bool
  ctrl_mouse_enabled : Bool
  ctrl_cursor_grabbed : Bool
  current_help : Nat
  short_visible : Bool
  long_visible : Bool
  cum_time : ℚ
  cum_updates_time : ℚ
  num_frames : ℚ
  running : Bool
deriving DecidableEq

/-- The loop state right after the pre-loop setup of `Game::run`: help counter
0, short help visible, long help explicitly hidden, accumulators zero,
`mouse_grabbed = true`, `running = true`.  `t_start` is the first
`precise_time_s()` reading; the controller settings before the first grab
toggle are whatever the controller chose at construction. -/
def initialLoopState (t_start : ℚ) (me cg : Bool) : LoopState :=
  { t0 := t_start, mouse_grabbed := true, ctrl_mouse_enabled := me,
    ctrl_cursor_grabbed := cg, current_help := 0, short_visible := true,
    long_visible := false, cum_time := 0, cum_updates_time := 0, num_frames := 0,
    running := true }

/-- The `else if` gesture chain of `Game::run` (lines 114-131): Quit, then
grab toggle, then help toggle, first match wins.  The three booleans are what
`poll_gesture` would report for the three gestures this frame. -/
def gestureDispatch (s : LoopState) (quit grab help : Bool) : LoopState :=
  if quit then
    { s with running := false }
  else if grab then
    let m := !s.mouse_grabbed
    { s with mouse_grabbed := m, ctrl_mouse_enabled := m, ctrl_cursor_grabbed := m }
  else if help then
    let t := applyHelp s.current_help s.short_visible s.long_visible
    { s with current_help := t.1, short_visible := t.2.1, long_visible := t.2.2 }
  else
    s

/-- Telemetry accumulation and reporting (`Game::run`, lines 141-158):
add the update-phase CPU time and the frame delta, bump the frame counter,
and when the simulation-time accumulator strictly exceeds 2.0 emit a report
`(fps, cpums)` and reset all three accumulators to zero.  Returns the new
(cum_time, cum_updates_time, num_frames) and the optional report. -/
def telemetryStep (cum_time cum_updates_time num_frames delta cpu : ℚ) :
    (ℚ × ℚ × ℚ) × Option (ℚ × ℚ) :=
  let cum_updates_time := cum_updates_time + cpu
  let cum_time := cum_time + delta
  let num_frames := num_frames + 1
  if cum_time > 2 then
    ((0, 0, 0), some (num_frames / cum_time, 1000 * cum_updates_time / num_frames))
  else
    ((cum_time, cum_updates_time, num_frames), none)

/-- Externally observable calls one loop iteration makes, in program order. -/
inductive Ev
  | draw
  | controlUpdate
  | playerUpdate (delta : ℚ)
  | setModelview
  | setProjection
  | levelUpdate (delta : ℚ)
  | sceneRender (delta : ℚ)
  | textRender
  | telemetryReport (fps cpums : ℚ)
  | frameFinish
deriving DecidableEq

/-- Inputs the environment supplies to one loop iteration: the two
`precise_time_s()` readings around the update phase, the current reading `t1`,
what the three gesture polls report, and whether the two render calls and
`frame.finish()` succeed. -/
structure FrameInput where
  now : ℚ
  updates_t0 : ℚ
  updates_t1 : ℚ
  quit : Bool
  grab : Bool
  help : Bool
  scene_render_ok : Bool
  text_render_ok : Bool
  finish_ok : Bool
deriving DecidableEq

/-- Outcome of one iteration of the `while running` body: the next state with
the event trace, an error propagated by `?` from a render call, or a process
abort from `frame.finish().expect(..)`. -/
inductive StepResult
  | next (s : LoopState) (evs : List Ev)
  | err (evs : List Ev)
  | panicked (evs : List Ev)
deriving DecidableEq

/-- One iteration of the body of `Game::run`'s `while running` loop (lines
102-160): draw, clamp delta, update `t0` unconditionally to the unclamped
`t1`, poll input, dispatch gestures, update player/scene/level, render scene
then text (each failure propagating), accumulate telemetry, finish the frame
(failure aborting). -/
def step (s : LoopState) (i : FrameInput) : StepResult :=
  let delta := effectiveDelta (i.now - s.t0)
  let s := { s with t0 := i.now }
  let s := gestureDispatch s i.quit i.grab i.help
  let evs := [Ev.draw, Ev.controlUpdate, Ev.playerUpdate delta, Ev.setModelview,
              Ev.setProjection, Ev.levelUpdate delta, Ev.sceneRender delta]
  if i.scene_render_ok = false then .err evs else
  let evs := evs ++ [Ev.textRender]
  if i.text_render_ok = false then .err evs else
  let cpu := i.updates_t1 - i.updates_t0
  let tele := telemetryStep s.cum_time s.cum_updates_time s.num_frames delta cpu
  let s := { s with cum_time := tele.1.1, cum_updates_time := tele.1.2.1,
                    num_frames := tele.1.2.2 }
  let evs := evs ++ (match tele.2 with
    | some r => [Ev.telemetryReport r.1 r.2]
    | none => [])
  if i.finish_ok = false then .panicked evs
  else .next s (evs ++ [Ev.frameFinish])

/-- Result of running the loop on a finite schedule of frame inputs: normal
exit (`running` became false), schedule exhausted while still running, a
propagated render error, or a process abort. -/
inductive RunResult
  | ok (s : LoopState) (trace : List Ev)
  | starved (s : LoopState) (trace : List Ev)
  | err (trace : List Ev)
  | panicked (trace : List Ev)
deriving DecidableEq

/-- The `while running` loop of `Game::run`, driven by a finite list of frame
inputs.  The `running` flag is tested before each iteration, exactly as the
`while` condition is. -/
def runLoop (s : LoopState) : List FrameInput → RunResult
  | [] => if s.running = false then .ok s [] else .starved s []
  | i :: rest =>
    if s.running = false then .ok s [] else
    match step s i with
    | .next s1 evs =>
      match runLoop s1 rest with
      | .ok s2 tr => .ok s2 (evs ++ tr)
      | .starved s2 tr => .starved s2 (evs ++ tr)
      | .err tr => .err (evs ++ tr)
      | .panicked tr => .panicked (evs ++ tr)
    | .err evs => .err evs
    | .panicked evs => .panicked evs

/-- Iterated help toggles from the initial overlay state (counter 0, short
help visible, long help hidden). -/
def toggles : Nat → Nat × Bool × Bool
  | 0 => (0, true, false)
  | n + 1 =>
    let t := toggles n
    applyHelp t.1 t.2.1 t.2.2

/-- Telemetry accumulators folded over a list of frames, each frame giving its
(effective delta, update CPU time); records the per-frame report slot. -/
def telemetryRun (st : ℚ × ℚ × ℚ) : List (ℚ × ℚ) → (ℚ × ℚ × ℚ) × List (Option (ℚ × ℚ))
  | [] => (st, [])
  | f :: rest =>
    let t := telemetryStep st.1 st.2.1 st.2.2 f.1 f.2
    let r := telemetryRun t.1 rest
    (r.1, t.2 :: r.2)

/-- The reporting threshold is crossed for the first time exactly at the last
frame of the list: every proper prefix leaves the accumulator at most 2, and
the full list pushes it strictly above 2. -/
def onlyLastCrosses (ct : ℚ) : List (ℚ × ℚ) → Bool
  | [] => false
  | f :: rest =>
    match rest with
    | [] => decide (ct + f.1 > 2)
    | _ :: _ => decide (ct + f.1 ≤ 2) && onlyLastCrosses (ct + f.1) rest

/-- The successor state a fully successful iteration of the loop body
produces, written out from the components of `step`. -/
def stepState (s : LoopState) (i : FrameInput) : LoopState :=
  let delta := effectiveDelta (i.now - s.t0)
  let sg := gestureDispatch { s with t0 := i.now } i.quit i.grab i.help
  let tele := telemetryStep sg.cum_time sg.cum_updates_time sg.num_frames delta
    (i.updates_t1 - i.updates_t0)
  { sg with cum_time := tele.1.1, cum_updates_time := tele.1.2.1,
            num_frames := tele.1.2.2 }

/-- The event trace a fully successful iteration of the loop body produces. -/
def stepEvs (s : LoopState) (i : FrameInput) : List Ev :=
  let delta := effectiveDelta (i.now - s.t0)
  let sg := gestureDispatch { s with t0 := i.now } i.quit i.grab i.help
  let tele := telemetryStep sg.cum_time sg.cum_updates_time sg.num_frames delta
    (i.updates_t1 - i.updates_t0)
  [Ev.draw, Ev.controlUpdate, Ev.playerUpdate delta, Ev.setModelview, Ev.setProjection,
   Ev.levelUpdate delta, Ev.sceneRender delta, Ev.textRender] ++
  (match tele.2 with
    | some r => [Ev.telemetryReport r.1 r.2]
    | none => []) ++
  [Ev.frameFinish]

/-- Concrete configuration with `level_index = 1`. -/
def cfgOOB : GameConfig := { level_index := 1, fov := 1, width := 640, height := 480 }

/-- Concrete configuration with `level_index = 0`. -/
def cfgZero : GameConfig := { level_index := 0, fov := 7, width := 640, height := 480 }

/-- Concrete boot environment: every collaborator call succeeds and the
archive holds exactly one level. -/
def envOne : BootEnv :=
  { sdl_ok := true, window := some ⟨2⟩, archive := some ⟨1⟩, textures_ok := true,
    level := some ⟨(3, 4)⟩, scene_build_ok := true, event_pump_ok := true, text_ok := true }

/-- Concrete boot environment: every collaborator call succeeds but the
archive reports zero levels. -/
def envEmpty : BootEnv :=
  { sdl_ok := true, window := some ⟨2⟩, archive := some ⟨0⟩, textures_ok := true,
    level := some ⟨(3, 4)⟩, scene_build_ok := true, event_pump_ok := true, text_ok := true }

/-- Concrete loop state: fresh loop started at time 0. -/
def s0 : LoopState := initialLoopState 0 true true

/-- Concrete frame input: clock at 2 seconds, no gestures, everything
succeeds (so the effective delta of the frame is exactly 2). -/
def i0 : FrameInput :=
  { now := 2, updates_t0 := 0, updates_t1 := 1 / 100, quit := false, grab := false,
    help := false, scene_render_ok := true, text_render_ok := true, finish_ok := true }

/-- Concrete frame input: quit and help both poll true, everything succeeds. -/
def iQuitHelp : FrameInput :=
  { now := 1, updates_t0 := 0, updates_t1 := 1 / 100, quit := true, grab := false,
    help := true, scene_render_ok := true, text_render_ok := true, finish_ok := true }

/-- Concrete frame input: the scene render call fails. -/
def iSceneFail : FrameInput :=
  { now := 1, updates_t0 := 0, updates_t1 := 1 / 100, quit := false, grab := false,
    help := false, scene_render_ok := false, text_render_ok := true, finish_ok := true }

/-- Concrete frame input: the text render call fails. -/
def iTextFail : FrameInput :=
  { now := 1, updates_t0 := 0, updates_t1 := 1 / 100, quit := false, grab := false,
    help := false, scene_render_ok := true, text_render_ok := false, finish_ok := true }

/-- Concrete frame input: `frame.finish()` fails. -/
def iFinishFail : FrameInput :=
  { now := 1, updates_t0 := 0, updates_t1 := 1 / 100, quit := false, grab := false,
    help := false, scene_render_ok := true, text_render_ok := true, finish_ok := false }

/-- The runtime instance `gameNew cfgZero envOne` assembles. -/
def gOne : Game :=
  { window := ⟨2⟩, scene := (), text := (),
    player := { fov := 7, aspect := 2 * (6 / 5), physics := {}, pos := (3, 4) },
    level := ⟨(3, 4)⟩, control := () }

/-- The full allocation list of a successful bootstrap. -/
def allocsAll : List Alloc :=
  [.sdl, .window, .archive, .textures, .sceneBuilder, .level, .scene, .player,
   .controller, .text]

/-! ## Helper lemmas -/

/-- Once `running` is false the `while` loop performs no further iteration. -/
theorem runLoop_not_running (s : LoopState) (h : s.running = false) :
    ∀ ins : List FrameInput, runLoop s ins = .ok s [] := by
  intro ins
  cases ins with
  | nil => simp [runLoop, h]
  | cons i rest => simp [runLoop, h]

/-- A fully successful iteration produces the canonical successor state and
trace. -/
theorem step_ok (s : LoopState) (i : FrameInput) (h1 : i.scene_render_ok = true)
    (h2 : i.text_render_ok = true) (h3 : i.finish_ok = true) :
    step s i = .next (stepState s i) (stepEvs s i) := by
  simp [step, stepState, stepEvs, h1, h2, h3]

/-- Conversely, an iteration only yields `next` when both render calls and
the frame presentation succeed, and then state and trace are the canonical
ones. -/
theorem step_next_inv (s : LoopState) (i : FrameInput) (s1 : LoopState) (evs : List Ev)
    (h : step s i = .next s1 evs) :
    i.scene_render_ok = true ∧ i.text_render_ok = true ∧ i.finish_ok = true ∧
    s1 = stepState s i ∧ evs = stepEvs s i := by
  by_cases h1 : i.scene_render_ok = true
  · by_cases h2 : i.text_render_ok = true
    · by_cases h3 : i.finish_ok = true
      · refine ⟨h1, h2, h3, ?_, ?_⟩ <;>
        · rw [step_ok s i h1 h2 h3] at h
          cases h
          rfl
      · rw [Bool.not_eq_true] at h3
        simp [step, h1, h2, h3] at h
    · rw [Bool.not_eq_true] at h2
      simp [step, h1, h2] at h
  · rw [Bool.not_eq_true] at h1
    simp [step, h1] at h

/-- The gesture chain never touches the frame timestamp. -/
theorem gestureDispatch_t0 (s : LoopState) (q g h : Bool) :
    (gestureDispatch s q g h).t0 = s.t0 := by
  simp only [gestureDispatch]
  split
  · rfl
  · split
    · rfl
    · split <;> rfl

/-- A polled quit gesture short-circuits the chain: the only state change is
`running := false`. -/
theorem gestureDispatch_quit (s : LoopState) (g h : Bool) :
    gestureDispatch s true g h = { s with running := false } := by
  simp [gestureDispatch]

/-! ## C1 — bootstrap failure on an out-of-range level index -/

/-- C1 (counterexample): with `level_index = 1` and an archive of exactly one
level (`level_index >= num_levels`), `Game::new` does fail with a
configuration error, but a window resource HAS been allocated before the
failing check — refuting "allocates no window, scene, or player resources:
the failure occurs before any resource is allocated". -/
theorem bootstrap_oob_window_already_allocated :
    cfgOOB.level_index ≥ 1 ∧ envOne.archive = some ⟨1⟩ ∧
    (gameNew cfgOOB envOne).1 = .err (.config ⟨1, 0⟩) ∧
    Alloc.window ∈ (gameNew cfgOOB envOne).2 := by
  refine ⟨by norm_num [cfgOOB], rfl, ?_, ?_⟩ <;>
    simp [gameNew, cfgOOB, envOne, checkedSub]

/-- C1 (amended): for every configuration with
`1 ≤ num_levels ≤ level_index` (and the platform, window and archive steps
succeeding), `Game::new` fails with the configuration error carrying the
range hint `0..num_levels - 1`, and at that point exactly the platform
context, the window and the archive have been allocated — no texture
directory, scene, level, player, controller, or text renderer is ever
created. -/
theorem bootstrap_oob_config_error (config : GameConfig) (env : BootEnv)
    (w : WindowSpec) (a : ArchiveSpec) (hs : env.sdl_ok = true)
    (hw : env.window = some w) (ha : env.archive = some a)
    (hn : 1 ≤ a.num_levels) (hi : a.num_levels ≤ config.level_index) :
    gameNew config env =
      (.err (.config ⟨config.level_index, a.num_levels - 1⟩),
       [.sdl, .window, .archive]) := by
  have hlt : ¬ config.level_index < a.num_levels := Nat.not_lt.mpr hi
  simp [gameNew, hs, hw, ha, hlt, checkedSub, hn]

/-- C1 (witness for the amended theorem at a concrete input). -/
theorem bootstrap_oob_config_error_witness :
    gameNew cfgOOB envOne =
      (.err (.config ⟨1, 0⟩), [.sdl, .window, .archive]) :=
  bootstrap_oob_config_error cfgOOB envOne ⟨2⟩ ⟨1⟩ rfl rfl rfl
    (by norm_num) (by norm_num [cfgOOB])

/-! ## C10 — empty archive underflows the range-hint subtraction -/

/-- C10: if the opened archive reports `num_levels() = 0`, the validation
`level_index < num_levels` fails for every index, and the message expression
`wad.num_levels() - 1` is an underflowing `usize` subtraction
(`checkedSub 0 1 = none`); under guarded arithmetic `Game::new` therefore
aborts instead of producing the well-formed range-hint configuration error. -/
theorem bootstrap_empty_archive_underflow (config : GameConfig) (env : BootEnv)
    (w : WindowSpec) (a : ArchiveSpec) (hs : env.sdl_ok = true)
    (hw : env.window = some w) (ha : env.archive = some a)
    (h0 : a.num_levels = 0) :
    ¬ config.level_index < a.num_levels ∧
    checkedSub a.num_levels 1 = none ∧
    gameNew config env = (.panicked, [.sdl, .window, .archive]) := by
  refine ⟨by omega, by simp [checkedSub, h0], ?_⟩
  have hlt : ¬ config.level_index < a.num_levels := by omega
  simp [gameNew, hs, hw, ha, hlt, checkedSub, h0]

/-- C10 (witness at a concrete input). -/
theorem bootstrap_empty_archive_underflow_witness :
    ¬ cfgZero.level_index < (⟨0⟩ : ArchiveSpec).num_levels ∧
    checkedSub (⟨0⟩ : ArchiveSpec).num_levels 1 = none ∧
    gameNew cfgZero envEmpty = (.panicked, [.sdl, .window, .archive]) :=
  bootstrap_empty_archive_underflow cfgZero envEmpty ⟨2⟩ ⟨0⟩ rfl rfl rfl rfl

/-! ## C8 — player construction on successful bootstrap -/

/-- C8: whenever `Game::new` succeeds, the player of the returned instance
was built with the configured field of view, aspect ratio
`window.aspect_ratio() * 1.2`, and default physics parameters, and its
position was then set to the built level's start position. -/
theorem bootstrap_player_construction (config : GameConfig) (env : BootEnv)
    (g : Game) (allocs : List Alloc) (h : gameNew config env = (.ok g, allocs)) :
    g.player.fov = config.fov ∧
    g.player.aspect = g.window.aspect_ratio * (6 / 5) ∧
    g.player.physics = default ∧
    g.player.pos = g.level.start_pos := by
  rcases env with ⟨sdl_ok, window, archive, textures_ok, level, scene_build_ok,
    event_pump_ok, text_ok⟩
  cases sdl_ok <;> simp [gameNew] at h
  cases window with
  | none => simp at h
  | some w =>
  cases archive with
  | none => simp at h
  | some a =>
  by_cases hlt : config.level_index < a.num_levels
  · simp only [hlt, if_true] at h
    cases textures_ok <;> simp at h
    cases level with
    | none => simp at h
    | some lvl =>
    cases scene_build_ok <;> simp at h
    cases event_pump_ok <;> simp at h
    cases text_ok <;> simp at h
    obtain ⟨hg, -⟩ := h
    subst hg
    simp [Player.new, Player.set_position]
  · simp only [hlt, if_false] at h
    cases hcs : checkedSub a.num_levels 1 <;> simp [hcs] at h

/-- C8 (witness at a concrete input). -/
theorem bootstrap_player_construction_witness :
    gOne.player.fov = cfgZero.fov ∧
    gOne.player.aspect = gOne.window.aspect_ratio * (6 / 5) ∧
    gOne.player.physics = default ∧
    gOne.player.pos = gOne.level.start_pos :=
  bootstrap_player_construction cfgZero envOne gOne allocsAll
    (by simp [gameNew, cfgZero, envOne, gOne, allocsAll, Player.new, Player.set_position])

/-! ## Frame-loop claims -/

/-- C3: starting from the initial overlay state (counter 0, short help
visible, long help hidden), n >= 1 help toggles give state Long (counter 1,
short hidden, long visible) for odd n and Hidden (counter 2, both hidden) for
even n; in particular the short help stays hidden, so the machine never
returns to the Short state once it has left it. -/
theorem overlay_never_short (n : Nat) (hn : 1 ≤ n) :
    toggles n = (if n % 2 = 1 then ((1 : Nat), false, true) else (2, false, false)) ∧
    (toggles n).2.1 = false := by
  have main : ∀ m : Nat,
      toggles (m + 1) =
        (if (m + 1) % 2 = 1 then ((1 : Nat), false, true) else (2, false, false)) := by
    intro m
    induction m with
    | zero => decide
    | succ k ih =>
      have hstep : toggles (k + 2) =
          applyHelp (toggles (k + 1)).1 (toggles (k + 1)).2.1 (toggles (k + 1)).2.2 := rfl
      rcases Nat.mod_two_eq_zero_or_one (k + 1) with h2 | h2
      · have h2' : (k + 2) % 2 = 1 := by omega
        rw [hstep, ih]
        simp [h2, h2', applyHelp]
      · have h2' : (k + 2) % 2 = 0 := by omega
        rw [hstep, ih]
        simp [h2, h2', applyHelp]
  obtain ⟨m, rfl⟩ : ∃ m, n = m + 1 := ⟨n - 1, by omega⟩
  refine ⟨main m, ?_⟩
  rw [main m]
  split <;> rfl

/-- C9: the grab toggle is an involution on the grab state.  From
`mouse_grabbed = true`, firing the grab gesture once drives the flag and both
controller settings to false, firing it again restores all three to true,
and whenever the grab branch runs, `set_mouse_enabled` and
`set_cursor_grabbed` receive the same boolean value. -/
theorem grab_toggle_involution (s : LoopState) (h : Bool) (hm : s.mouse_grabbed = true) :
    ((gestureDispatch s false true h).mouse_grabbed = false ∧
     (gestureDispatch s false true h).ctrl_mouse_enabled = false ∧
     (gestureDispatch s false true h).ctrl_cursor_grabbed = false) ∧
    ((gestureDispatch (gestureDispatch s false true h) false true h).mouse_grabbed = true ∧
     (gestureDispatch (gestureDispatch s false true h) false true h).ctrl_mouse_enabled = true ∧
     (gestureDispatch (gestureDispatch s false true h) false true h).ctrl_cursor_grabbed = true) ∧
    (∀ (s1 : LoopState) (h1 : Bool),
      (gestureDispatch s1 false true h1).ctrl_mouse_enabled =
        (gestureDispatch s1 false true h1).ctrl_cursor_grabbed) := by
  simp [gestureDispatch, hm]

/-- C4: gestures are evaluated Quit, then grab toggle, then help toggle,
first match wins.  If the quit and help gestures both poll true in the same
frame, the dispatch reduces to just `running := false` and the frame leaves
the overlay state (counter and both visibilities) and the whole grab state
untouched. -/
theorem gesture_priority_quit_over_help (s : LoopState) (i : FrameInput) (g h : Bool)
    (hq : i.quit = true) (hh : i.help = true) (s1 : LoopState) (evs : List Ev)
    (hstep : step s i = .next s1 evs) :
    gestureDispatch s true g h = { s with running := false } ∧
    s1.running = false ∧
    s1.current_help = s.current_help ∧
    s1.short_visible = s.short_visible ∧
    s1.long_visible = s.long_visible ∧
    s1.mouse_grabbed = s.mouse_grabbed ∧
    s1.ctrl_mouse_enabled = s.ctrl_mouse_enabled ∧
    s1.ctrl_cursor_grabbed = s.ctrl_cursor_grabbed := by
  obtain ⟨-, -, -, hs1, -⟩ := step_next_inv s i s1 evs hstep
  subst hs1
  refine ⟨gestureDispatch_quit s g h, ?_⟩
  simp [stepState, hq, gestureDispatch_quit]

/-- C5: the raw delta is `now - last_timestamp`; whenever it is below `1e-10`
(in particular whenever `|d| < 1e-10`) the effective delta of the frame is
`1/60`, otherwise the raw delta itself is used; and every successful
iteration stores the unclamped `now` into `last_timestamp`, while the player
update of that iteration receives the clamped effective delta. -/
theorem delta_clamp :
    (∀ d : ℚ, d < stallEps → effectiveDelta d = 1 / 60) ∧
    (∀ d : ℚ, |d| < stallEps → effectiveDelta d = 1 / 60) ∧
    (∀ d : ℚ, ¬ d < stallEps → effectiveDelta d = d) ∧
    (∀ (s : LoopState) (i : FrameInput) (s1 : LoopState) (evs : List Ev),
      step s i = .next s1 evs →
      s1.t0 = i.now ∧ Ev.playerUpdate (effectiveDelta (i.now - s.t0)) ∈ evs) := by
  refine ⟨?_, ?_, ?_, ?_⟩
  · intro d hd
    simp [effectiveDelta, hd]
  · intro d hd
    have hlt : d < stallEps := lt_of_le_of_lt (le_abs_self d) hd
    simp [effectiveDelta, hlt]
  · intro d hd
    simp [effectiveDelta, hd]
  · intro s i s1 evs hstep
    obtain ⟨-, -, -, hs1, hevs⟩ := step_next_inv s i s1 evs hstep
    subst hs1
    subst hevs
    constructor
    · simp [stepState, gestureDispatch_t0]
    · simp [stepEvs]

/-- C3 (witness at n = 4). -/
theorem overlay_never_short_witness :
    (toggles 4 = (if 4 % 2 = 1 then ((1 : Nat), false, true) else (2, false, false)) ∧
     (toggles 4).2.1 = false) :=
  overlay_never_short 4 (by norm_num)

/-- C9 (witness at the initial loop state). -/
theorem grab_toggle_involution_witness :
    ((gestureDispatch s0 false true false).mouse_grabbed = false ∧
     (gestureDispatch s0 false true false).ctrl_mouse_enabled = false ∧
     (gestureDispatch s0 false true false).ctrl_cursor_grabbed = false) ∧
    ((gestureDispatch (gestureDispatch s0 false true false) false true false).mouse_grabbed = true ∧
     (gestureDispatch (gestureDispatch s0 false true false) false true false).ctrl_mouse_enabled = true ∧
     (gestureDispatch (gestureDispatch s0 false true false) false true false).ctrl_cursor_grabbed = true) ∧
    (∀ (s1 : LoopState) (h1 : Bool),
      (gestureDispatch s1 false true h1).ctrl_mouse_enabled =
        (gestureDispatch s1 false true h1).ctrl_cursor_grabbed) :=
  grab_toggle_involution s0 false rfl

/-- C4 (witness at a concrete frame where quit and help both poll true). -/
theorem gesture_priority_quit_over_help_witness :
    gestureDispatch s0 true false true = { s0 with running := false } ∧
    (stepState s0 iQuitHelp).running = false ∧
    (stepState s0 iQuitHelp).current_help = s0.current_help ∧
    (stepState s0 iQuitHelp).short_visible = s0.short_visible ∧
    (stepState s0 iQuitHelp).long_visible = s0.long_visible ∧
    (stepState s0 iQuitHelp).mouse_grabbed = s0.mouse_grabbed ∧
    (stepState s0 iQuitHelp).ctrl_mouse_enabled = s0.ctrl_mouse_enabled ∧
    (stepState s0 iQuitHelp).ctrl_cursor_grabbed = s0.ctrl_cursor_grabbed :=
  gesture_priority_quit_over_help s0 iQuitHelp false true rfl rfl
    (stepState s0 iQuitHelp) (stepEvs s0 iQuitHelp) (step_ok s0 iQuitHelp rfl rfl rfl)

/-- C5 (witness at concrete deltas and a concrete frame). -/
theorem delta_clamp_witness :
    effectiveDelta (1 / 20000000000) = 1 / 60 ∧
    effectiveDelta (-(1 / 20000000000)) = 1 / 60 ∧
    effectiveDelta 5 = 5 ∧
    ((stepState s0 i0).t0 = i0.now ∧
     Ev.playerUpdate (effectiveDelta (i0.now - s0.t0)) ∈ stepEvs s0 i0) :=
  ⟨delta_clamp.1 _ (by norm_num [stallEps]),
   delta_clamp.2.1 _ (by rw [abs_neg, abs_of_nonneg (by norm_num)]; norm_num [stallEps]),
   delta_clamp.2.2.1 5 (by norm_num [stallEps]),
   delta_clamp.2.2.2 s0 i0 (stepState s0 i0) (stepEvs s0 i0) (step_ok s0 i0 rfl rfl rfl)⟩

/-- C6: when the quit gesture is observed (and the frame's render and
presentation calls succeed), the quit check runs before the update/render
phase, yet the same iteration still performs the player update, the scene
and overlay renders, the telemetry accumulation for this frame's delta, and
the frame presentation as its last event; the loop then exits with exactly
this frame's trace no matter how many further frames the schedule holds. -/
theorem quit_stops_after_frame (s : LoopState) (i : FrameInput)
    (hrun : s.running = true) (hq : i.quit = true)
    (h1 : i.scene_render_ok = true) (h2 : i.text_render_ok = true)
    (h3 : i.finish_ok = true) :
    step s i = .next (stepState s i) (stepEvs s i) ∧
    (stepState s i).running = false ∧
    Ev.playerUpdate (effectiveDelta (i.now - s.t0)) ∈ stepEvs s i ∧
    Ev.sceneRender (effectiveDelta (i.now - s.t0)) ∈ stepEvs s i ∧
    Ev.textRender ∈ stepEvs s i ∧
    (stepEvs s i).getLast? = some Ev.frameFinish ∧
    ((stepState s i).cum_time, (stepState s i).cum_updates_time,
      (stepState s i).num_frames) =
      (telemetryStep s.cum_time s.cum_updates_time s.num_frames
        (effectiveDelta (i.now - s.t0)) (i.updates_t1 - i.updates_t0)).1 ∧
    (∀ rest : List FrameInput, runLoop s (i :: rest) = .ok (stepState s i) (stepEvs s i)) := by
  have hnext := step_ok s i h1 h2 h3
  have hrunning : (stepState s i).running = false := by
    simp [stepState, hq, gestureDispatch_quit]
  refine ⟨hnext, hrunning, ?_, ?_, ?_, ?_, ?_, ?_⟩
  · simp [stepEvs]
  · simp [stepEvs]
  · simp [stepEvs]
  · simp only [stepEvs]
    rw [List.getLast?_append]
    rfl
  · simp [stepState, hq, gestureDispatch_quit]
  · intro rest
    rw [runLoop]
    simp only [hrun, hnext]
    rw [runLoop_not_running (stepState s i) hrunning rest]
    simp

/-- C7: if the scene render or the text render of an iteration fails, the
loop terminates and `Game::run` propagates that error as its result; if
frame presentation fails instead, the loop aborts the process (the
`expect` diagnostic) rather than returning an error. -/
theorem render_failure_handling (s : LoopState) (i : FrameInput) (hrun : s.running = true) :
    (i.scene_render_ok = false →
      ∃ evs, step s i = .err evs ∧ ∀ rest, runLoop s (i :: rest) = .err evs) ∧
    (i.scene_render_ok = true → i.text_render_ok = false →
      ∃ evs, step s i = .err evs ∧ ∀ rest, runLoop s (i :: rest) = .err evs) ∧
    (i.scene_render_ok = true → i.text_render_ok = true → i.finish_ok = false →
      ∃ evs, step s i = .panicked evs ∧ ∀ rest, runLoop s (i :: rest) = .panicked evs) := by
  refine ⟨?_, ?_, ?_⟩
  · intro hsf
    have hstep : ∃ evs, step s i = .err evs := by
      simp only [step, hsf]
      exact ⟨_, rfl⟩
    obtain ⟨evs, hevs⟩ := hstep
    exact ⟨evs, hevs, fun rest => by rw [runLoop]; simp [hrun, hevs]⟩
  · intro hso htf
    have hstep : ∃ evs, step s i = .err evs := by
      simp only [step, hso, htf]
      simp
    obtain ⟨evs, hevs⟩ := hstep
    exact ⟨evs, hevs, fun rest => by rw [runLoop]; simp [hrun, hevs]⟩
  · intro hso hto hff
    have hstep : ∃ evs, step s i = .panicked evs := by
      simp only [step, hso, hto, hff]
      simp
    obtain ⟨evs, hevs⟩ := hstep
    exact ⟨evs, hevs, fun rest => by rw [runLoop]; simp [hrun, hevs]⟩

/-- C6 (witness at a concrete quitting frame). -/
theorem quit_stops_after_frame_witness :
    step s0 iQuitHelp = .next (stepState s0 iQuitHelp) (stepEvs s0 iQuitHelp) ∧
    (stepState s0 iQuitHelp).running = false ∧
    Ev.playerUpdate (effectiveDelta (iQuitHelp.now - s0.t0)) ∈ stepEvs s0 iQuitHelp ∧
    Ev.sceneRender (effectiveDelta (iQuitHelp.now - s0.t0)) ∈ stepEvs s0 iQuitHelp ∧
    Ev.textRender ∈ stepEvs s0 iQuitHelp ∧
    (stepEvs s0 iQuitHelp).getLast? = some Ev.frameFinish ∧
    ((stepState s0 iQuitHelp).cum_time, (stepState s0 iQuitHelp).cum_updates_time,
      (stepState s0 iQuitHelp).num_frames) =
      (telemetryStep s0.cum_time s0.cum_updates_time s0.num_frames
        (effectiveDelta (iQuitHelp.now - s0.t0)) (iQuitHelp.updates_t1 - iQuitHelp.updates_t0)).1 ∧
    (∀ rest : List FrameInput,
      runLoop s0 (iQuitHelp :: rest) = .ok (stepState s0 iQuitHelp) (stepEvs s0 iQuitHelp)) :=
  quit_stops_after_frame s0 iQuitHelp rfl rfl rfl rfl rfl

/-- C7 (witness at three concrete failing frames). -/
theorem render_failure_handling_witness :
    (∃ evs, step s0 iSceneFail = .err evs ∧
      ∀ rest, runLoop s0 (iSceneFail :: rest) = .err evs) ∧
    (∃ evs, step s0 iTextFail = .err evs ∧
      ∀ rest, runLoop s0 (iTextFail :: rest) = .err evs) ∧
    (∃ evs, step s0 iFinishFail = .panicked evs ∧
      ∀ rest, runLoop s0 (iFinishFail :: rest) = .panicked evs) :=
  ⟨(render_failure_handling s0 iSceneFail rfl).1 rfl,
   (render_failure_handling s0 iTextFail rfl).2.1 rfl rfl,
   (render_failure_handling s0 iFinishFail rfl).2.2 rfl rfl rfl⟩

/-- Unfolding lemma for `telemetryRun` on a cons cell. -/
theorem telemetryRun_cons (a b c : ℚ) (f : ℚ × ℚ) (rest : List (ℚ × ℚ)) :
    telemetryRun (a, b, c) (f :: rest) =
      ((telemetryRun (telemetryStep a b c f.1 f.2).1 rest).1,
       (telemetryStep a b c f.1 f.2).2 ::
         (telemetryRun (telemetryStep a b c f.1 f.2).1 rest).2) := rfl

/-- Below or at the threshold the accumulators grow and no report is made. -/
theorem telemetryStep_no_report (ct cu nf d c : ℚ) (h : ¬ ct + d > 2) :
    telemetryStep ct cu nf d c = ((ct + d, cu + c, nf + 1), none) := by
  simp [telemetryStep, h]

/-- Strictly above the threshold a report is emitted and everything resets. -/
theorem telemetryStep_report (ct cu nf d c : ℚ) (h : ct + d > 2) :
    telemetryStep ct cu nf d c =
      ((0, 0, 0), some ((nf + 1) / (ct + d), 1000 * (cu + c) / (nf + 1))) := by
  simp [telemetryStep, h]

/-- C2 (amended): for every accumulator state and frame sequence whose
simulation-time accumulator first exceeds 2.0 strictly at the last frame, a
report is emitted exactly at that frame, with `fps = frames / sim_time` and
`cpu_ms = 1000 * cpu_time / frames`, and all three accumulators are reset to
zero immediately after.  With zero starting accumulators and N frames of
total effective delta S > 2.0 this gives `fps = N / S`. -/
theorem telemetry_report_on_crossing (ct cu nf : ℚ) (frames : List (ℚ × ℚ))
    (h : onlyLastCrosses ct frames = true) :
    telemetryRun (ct, cu, nf) frames =
      ((0, 0, 0),
       List.replicate (frames.length - 1) none ++
         [some ((nf + frames.length) / (ct + (frames.map Prod.fst).sum),
                1000 * (cu + (frames.map Prod.snd).sum) / (nf + frames.length))]) := by
  induction frames generalizing ct cu nf with
  | nil => simp [onlyLastCrosses] at h
  | cons f rest ih =>
    cases rest with
    | nil =>
      simp only [onlyLastCrosses, decide_eq_true_eq] at h
      rw [telemetryRun_cons, telemetryStep_report ct cu nf f.1 f.2 h]
      simp [telemetryRun]
    | cons r rs =>
      simp only [onlyLastCrosses, Bool.and_eq_true, decide_eq_true_eq] at h
      obtain ⟨hle, hrest⟩ := h
      have hnotgt : ¬ ct + f.1 > 2 := not_lt.mpr hle
      have ihr := ih (ct + f.1) (cu + f.2) (nf + 1) hrest
      rw [telemetryRun_cons, telemetryStep_no_report ct cu nf f.1 f.2 hnotgt]
      simp only [ihr]
      simp [List.replicate_succ]
      ring_nf
      trivial

/-- C2 (counterexample): a run whose effective deltas sum to exactly 2.0 at
frame N (here N = 1, a single frame of effective delta 2) emits NO telemetry
report at frame N, and the accumulators are not reset: the source condition
is the strict `cum_time > 2.0`, so summing to exactly 2.0 does not trigger a
report, refuting the claim as stated. -/
theorem telemetry_exact_two_no_report :
    runLoop s0 [i0] = .starved
      { t0 := 2, mouse_grabbed := true, ctrl_mouse_enabled := true,
        ctrl_cursor_grabbed := true, current_help := 0, short_visible := true,
        long_visible := false, cum_time := 2, cum_updates_time := 1 / 100,
        num_frames := 1, running := true }
      [Ev.draw, Ev.controlUpdate, Ev.playerUpdate 2, Ev.setModelview, Ev.setProjection,
       Ev.levelUpdate 2, Ev.sceneRender 2, Ev.textRender, Ev.frameFinish] := by
  simp [runLoop, step, s0, i0, initialLoopState, effectiveDelta, stallEps,
    gestureDispatch, telemetryStep]
  norm_num

/-- C2 (witness for the amended theorem at a concrete two-frame schedule
whose deltas sum to 5/2 > 2). -/
theorem telemetry_report_on_crossing_witness :
    telemetryRun (0, 0, 0) [((1 : ℚ), (1 / 2 : ℚ)), ((3 / 2 : ℚ), (1 / 2 : ℚ))] =
      ((0, 0, 0), [none, some (4 / 5, 500)]) := by
  have h := telemetry_report_on_crossing 0 0 0 [(1, 1 / 2), (3 / 2, 1 / 2)]
    (by norm_num [onlyLastCrosses])
  norm_num at h
  exact h
